import Mathlib

/-!
Shallow embedding of the `huprt` package (src/errors.go, src/huprt.go): a
SIGHUP-driven process-restart handshake.  Go strings become `String`, Go
slices become `List String` with explicit `make`/`copy` semantics, the
`error` interface becomes `Option String` (the message observable through
`Error()`), pointer methods with a possibly-nil receiver take an `Option`
receiver, and the effectful parts of `Hupd.Start` / `Hupd.Restart`
(signal delivery, subscription, spawn, kill, the select over signal and
timer) are embedded as functions from an explicit environment to a trace
of externally visible events plus the returned error.
-/

namespace Huprt

/-- Error codes from src/errors.go (Go `iota`, so 0..4). -/
def ErrTimeout : Int := 0

/-- `ErrNewProcess` — error starting new process. -/
def ErrNewProcess : Int := 1

/-- `ErrKillProcess` — error killing parent process. -/
def ErrKillProcess : Int := 2

/-- `ErrRestart` — restart error. -/
def ErrRestart : Int := 3

/-- `ErrNoProcess` — `Hupd.Process` is nil. -/
def ErrNoProcess : Int := 4

/-- The `Error` struct of src/errors.go: a code and an optional wrapped
cause.  A Go `error` value is represented by the string its `Error()`
method renders, and a nil inner error by `none`. -/
structure Error where
  Code : Int
  Inner : Option String
deriving DecidableEq, Repr

/-- The `errMessages` map literal of src/errors.go, embedded as the lookup
function the map denotes (`none` = key absent). -/
def errMessages (code : Int) : Option String :=
  if code = ErrTimeout then some "huprt: process restart timed out"
  else if code = ErrNewProcess then some "huprt: error starting new process"
  else if code = ErrKillProcess then some "huprt: error killing parent process"
  else if code = ErrRestart then some "huprt: restart error"
  else if code = ErrNoProcess then some "huprt: Hupd.Process is nil"
  else none

/-- `func (e *Error) Error() string` from src/errors.go.  The receiver is a
pointer that may be nil, hence `Option Error`. -/
def Error.Error (e : Option Error) : String :=
  match e with
  | none => "huprt: no error"
  | some e =>
    let msg :=
      match errMessages e.Code with
      | some m => m
      | none => "huprt: unknown error"
    match e.Inner with
    | some inner => msg ++ ": " ++ inner
    | none => msg

/-- An `exec.Cmd` as configured by `restartCmd`: path, argument list, and
whether stdout/stderr are wired to the current process's own streams. -/
structure Cmd where
  Path : String
  Args : List String
  StdoutIsOwnStdout : Bool
  StderrIsOwnStderr : Bool
deriving DecidableEq, Repr

/-- Go `make([]string, n)`: a slice of `n` zero values (empty strings). -/
def makeStrings (n : Nat) : List String :=
  List.replicate n ""

/-- Go `copy(dst, src)` for string slices: overwrites the first
`min (dst.length) (src.length)` entries of `dst` with those of `src`. -/
def goCopy (dst src : List String) : List String :=
  src.take dst.length ++ dst.drop src.length

/-- `restartCmd` from src/huprt.go lines 98-122.  `os.Args` is passed
explicitly as its (always present) head `osArgs0` and tail `osArgsRest`.
Every step mirrors the source:
`args := make([]string, len(os.Args)+1)`; `copy(args[2:], os.Args[1:])`;
the check `args[1] == hupArg`; the reslice `args = args[1:]` or the write
`args[1] = hupArg`; and finally `args[0] = binpath`. -/
def restartCmd (hupArg : String) (osArgs0 : String) (osArgsRest : List String) : Cmd :=
  let binpath := osArgs0
  let args :=
    if 0 < osArgsRest.length then
      let args := makeStrings (osArgsRest.length + 2)
      let args := args.take 2 ++ goCopy (args.drop 2) osArgsRest
      let args :=
        if args.getD 1 "" = hupArg then
          args.drop 1
        else
          args.set 1 hupArg
      args.set 0 binpath
    else
      [binpath, hupArg]
  { Path := binpath, Args := args, StdoutIsOwnStdout := true, StderrIsOwnStderr := true }

/-- The `Process` interface of src/huprt.go.  `BeginRestart` receives the
freshly built `Cmd` by pointer and may mutate it before returning, so it is
embedded as a function yielding the returned error (`none` = nil) together
with the possibly mutated `Cmd`.  `Kill` returns nothing and is recorded in
the event trace instead. -/
structure Process where
  BeginRestart : Cmd → Option String × Cmd

/-- The `Hupd` struct: an optional `Process` capability (a nil interface
field becomes `none`), the restart argument, and the timeout, a
`time.Duration` (signed 64-bit nanosecond count, embedded as `Int`). -/
structure Hupd where
  Process : Option Process
  RestartArg : String
  Timeout : Int

/-- An attempted outbound signal delivery: `unix.Kill(pid, sig)`. -/
structure SigSend where
  pid : Int
  signal : Int
deriving DecidableEq, Repr

/-- `unix.SIGTERM` is signal number 15. -/
def SIGTERM : Int := 15

/-- Environment for `Hupd.Start`: the value `os.Getppid()` returns, and the
outcome of `unix.Kill(ppid, unix.SIGTERM)` (`none` = success). -/
structure StartEnv where
  ppid : Int
  killErr : Option String

/-- `func (h *Hupd) Start(fromRestart bool) error` from src/huprt.go lines
79-89.  Returns the list of attempted signal deliveries (the side effects)
and the returned error. -/
def Hupd.Start (_h : Hupd) (fromRestart : Bool) (env : StartEnv) :
    List SigSend × Option Error :=
  if !fromRestart then
    ([], none)
  else
    match env.killErr with
    | some e => ([⟨env.ppid, SIGTERM⟩], some ⟨ErrKillProcess, some e⟩)
    | none => ([⟨env.ppid, SIGTERM⟩], none)

/-- Externally visible events of one `Hupd.Restart` run, in order:
the `BeginRestart` call, `signal.Notify(sig, unix.SIGTERM)`, the
`cmd.Start()` spawn, the `Kill()` call, and the deferred
`signal.Stop(sig)`. -/
inductive REvent
  | beginRestartCall (cmd : Cmd)
  | notifySigterm
  | spawnCall (cmd : Cmd)
  | killCall
  | stopSigterm
deriving DecidableEq, Repr

/-- Environment for `Hupd.Restart`: the current `os.Args` (head and tail),
the outcome of `cmd.Start()` (`none` = success), and whether a SIGTERM is
delivered to the subscription before the timeout (if any) fires —
`sigBeforeTimeout = false` means no SIGTERM arrives within the timeout
window, or ever, when the wait is unbounded. -/
structure RestartEnv where
  osArgs0 : String
  osArgsRest : List String
  spawnErr : Option String
  sigBeforeTimeout : Bool

/-- The effective restart argument: `h.RestartArg`, defaulting to
`"-restart"` when empty (src/huprt.go lines 148-151). -/
def Hupd.restartArgEff (h : Hupd) : String :=
  if h.RestartArg.length = 0 then "-restart" else h.RestartArg

/-- `func (h *Hupd) Restart() error` from src/huprt.go lines 143-181,
as a function from the environment to the event trace and returned error.
`none` is the run that never returns: spawn succeeded, no SIGTERM ever
arrives, and `h.Timeout <= 0` so the timeout channel is nil and the
`select` blocks forever. -/
def Hupd.Restart (h : Hupd) (env : RestartEnv) :
    Option (List REvent × Option Error) :=
  match h.Process with
  | none => some ([], some ⟨ErrNoProcess, none⟩)
  | some p =>
    let cmd := restartCmd h.restartArgEff env.osArgs0 env.osArgsRest
    match p.BeginRestart cmd with
    | (some e, _) => some ([.beginRestartCall cmd], some ⟨ErrRestart, some e⟩)
    | (none, cmd2) =>
      match env.spawnErr with
      | some e =>
        some ([.beginRestartCall cmd, .notifySigterm, .spawnCall cmd2, .stopSigterm],
          some ⟨ErrNewProcess, some e⟩)
      | none =>
        if env.sigBeforeTimeout then
          some ([.beginRestartCall cmd, .notifySigterm, .spawnCall cmd2, .killCall,
            .stopSigterm], none)
        else if 0 < h.Timeout then
          some ([.beginRestartCall cmd, .notifySigterm, .spawnCall cmd2, .stopSigterm],
            some ⟨ErrTimeout, none⟩)
        else
          none

/-- Number of `Kill()` invocations in a trace. -/
def countKill : List REvent → Nat
  | [] => 0
  | .killCall :: tl => countKill tl + 1
  | _ :: tl => countKill tl

/-- Whether a trace contains a spawn attempt (`cmd.Start()`). -/
def hasSpawn : List REvent → Bool
  | [] => false
  | .spawnCall _ :: _ => true
  | _ :: tl => hasSpawn tl

/-- Whether a trace contains the SIGTERM subscription registration. -/
def hasNotify : List REvent → Bool
  | [] => false
  | .notifySigterm :: _ => true
  | _ :: tl => hasNotify tl

/-- Whether a trace contains the SIGTERM subscription release. -/
def hasStop : List REvent → Bool
  | [] => false
  | .stopSigterm :: _ => true
  | _ :: tl => hasStop tl

/-- The code of the error a `Restart` run returned, if it returned one. -/
def errCodeOf (r : Option (List REvent × Option Error)) : Option Int :=
  match r with
  | some (_, some e) => some e.Code
  | _ => none

/-- Rendering of the optional inner cause in `Error.Error`: the separator
and cause when present, nothing otherwise. -/
def innerSuffix : Option String → String
  | some s => ": " ++ s
  | none => ""

/-- A capability whose `BeginRestart` always succeeds and leaves the
command untouched (used to exercise the coordinator on concrete runs). -/
def okProcess : Process :=
  ⟨fun c => (none, c)⟩

/-- A capability whose `BeginRestart` always fails. -/
def failProcess : Process :=
  ⟨fun c => (some "begin failed", c)⟩

/-- A run in which the spawn succeeds and a SIGTERM arrives. -/
def envSig : RestartEnv :=
  ⟨"prog", ["a"], none, true⟩

/-- A run in which the spawn succeeds and no SIGTERM ever arrives. -/
def envNoSig : RestartEnv :=
  ⟨"prog", ["a"], none, false⟩

/-- A run in which the spawn fails. -/
def envSpawnFail : RestartEnv :=
  ⟨"prog", ["a"], some "spawn failed", false⟩

/-- Exhaustive case analysis of one `Hupd.Restart` run: exactly one of the
five return paths of src/huprt.go lines 143-181 is taken (or the `select`
blocks forever). -/
theorem Restart_shape (h : Hupd) (env : RestartEnv) :
    (h.Process = none ∧ h.Restart env = some ([], some ⟨ErrNoProcess, none⟩)) ∨
    (∃ p cmd, h.Process = some p ∧
      cmd = restartCmd h.restartArgEff env.osArgs0 env.osArgsRest ∧
      ((∃ e, (p.BeginRestart cmd).1 = some e ∧
          h.Restart env = some ([.beginRestartCall cmd], some ⟨ErrRestart, some e⟩)) ∨
       (∃ cmd2, p.BeginRestart cmd = (none, cmd2) ∧
         ((∃ e, env.spawnErr = some e ∧
            h.Restart env = some ([.beginRestartCall cmd, .notifySigterm,
              .spawnCall cmd2, .stopSigterm], some ⟨ErrNewProcess, some e⟩)) ∨
          (env.spawnErr = none ∧ env.sigBeforeTimeout = true ∧
            h.Restart env = some ([.beginRestartCall cmd, .notifySigterm,
              .spawnCall cmd2, .killCall, .stopSigterm], none)) ∨
          (env.spawnErr = none ∧ env.sigBeforeTimeout = false ∧ 0 < h.Timeout ∧
            h.Restart env = some ([.beginRestartCall cmd, .notifySigterm,
              .spawnCall cmd2, .stopSigterm], some ⟨ErrTimeout, none⟩)) ∨
          (env.spawnErr = none ∧ env.sigBeforeTimeout = false ∧ ¬ 0 < h.Timeout ∧
            h.Restart env = none))))) := by
  rcases hP : h.Process with _ | p
  · exact Or.inl ⟨rfl, by simp [Hupd.Restart, hP]⟩
  · refine Or.inr ⟨p, _, rfl, rfl, ?_⟩
    rcases hB : p.BeginRestart (restartCmd h.restartArgEff env.osArgs0 env.osArgsRest)
      with ⟨berr, cmd2⟩
    rcases berr with _ | e
    · refine Or.inr ⟨cmd2, rfl, ?_⟩
      rcases hS : env.spawnErr with _ | e
      · rcases hT : env.sigBeforeTimeout with _ | _
        · by_cases hTo : 0 < h.Timeout
          · exact Or.inr (Or.inr (Or.inl ⟨rfl, rfl, hTo,
              by simp [Hupd.Restart, hP, hB, hS, hT, hTo]⟩))
          · exact Or.inr (Or.inr (Or.inr ⟨rfl, rfl, hTo,
              by simp [Hupd.Restart, hP, hB, hS, hT, hTo]⟩))
        · exact Or.inr (Or.inl ⟨rfl, rfl, by simp [Hupd.Restart, hP, hB, hS, hT]⟩)
      · exact Or.inl ⟨e, rfl, by simp [Hupd.Restart, hP, hB, hS]⟩
    · exact Or.inl ⟨e, rfl, by simp [Hupd.Restart, hP, hB]⟩

/-- Inversion for a returned (trace, error) pair. -/
theorem some_pair_inv {tr tr' : List REvent} {res res' : Option Error}
    (h : (some (tr, res) : Option (List REvent × Option Error)) = some (tr', res')) :
    tr = tr' ∧ res = res' := by
  injection h with h'
  exact ⟨congrArg Prod.fst h', congrArg Prod.snd h'⟩

/-- In any returning `Restart` run, `Kill()` happens at most once, and a run
with a `Kill()` returned success. -/
theorem countKill_at_most_one (h : Hupd) (env : RestartEnv) (tr : List REvent)
    (res : Option Error) (hr : h.Restart env = some (tr, res)) :
    countKill tr ≤ 1 ∧ (countKill tr = 1 → res = none) := by
  rcases Restart_shape h env with ⟨_, hr'⟩ | ⟨p, cmd, _, _,
      ⟨e, _, hr'⟩ | ⟨cmd2, _, ⟨e, _, hr'⟩ | ⟨_, _, hr'⟩ | ⟨_, _, _, hr'⟩ | ⟨_, _, _, hr'⟩⟩⟩
  all_goals first
  | exact Option.noConfusion (hr'.symm.trans hr)
  | (obtain ⟨h1, h2⟩ := some_pair_inv (hr'.symm.trans hr)
     subst h1
     subst h2
     simp [countKill])

/-- C1: evaluating `restartCmd` at a point where the first user-supplied
argument already equals the (non-empty) marker.  The claim says the marker
appears at index 1 exactly once, reused rather than duplicated; the code
instead compares the marker against the zero value `args[1]` left by
`copy(args[2:], os.Args[1:])`, so the reuse branch never fires and the
marker is duplicated: with `os.Args = ["prog", "-restart", "x"]` the built
argument list is `["prog", "-restart", "-restart", "x"]` and the marker
occurs twice. -/
theorem restartCmd_duplicates_marker :
    (restartCmd "-restart" "prog" ["-restart", "x"]).Args
        = ["prog", "-restart", "-restart", "x"] ∧
    ((restartCmd "-restart" "prog" ["-restart", "x"]).Args.count "-restart" = 2) := by
  constructor <;> rfl

/-- C1 (amended behaviour, as the code actually is): for a non-empty marker,
the built list is the executable path, then the marker, then ALL original
user-supplied arguments in order — the marker is always inserted, never
reused, so when the first user argument equals the marker it appears at
both index 1 and index 2. -/
theorem restartCmd_always_inserts (hupArg bin : String) (rest : List String)
    (hne : hupArg ≠ "") :
    (restartCmd hupArg bin rest).Path = bin ∧
    (restartCmd hupArg bin rest).Args = bin :: hupArg :: rest := by
  constructor
  · rfl
  · rcases rest with _ | ⟨a, tl⟩
    · rfl
    · simp [restartCmd, makeStrings, goCopy, List.replicate_succ, Ne.symm hne]

/-- C7: `Start(false)` returns success and attempts no signal delivery;
`Start(true)` attempts exactly one SIGTERM delivery to the recorded parent
process id, returning success when delivery succeeds and a
`KillProcess`-coded error wrapping the OS failure otherwise. -/
theorem Start_spec (h : Hupd) (env : StartEnv) :
    h.Start false env = ([], none) ∧
    h.Start true env =
      ([⟨env.ppid, SIGTERM⟩], env.killErr.map fun e => ⟨ErrKillProcess, some e⟩) := by
  refine ⟨rfl, ?_⟩
  rcases hk : env.killErr with _ | e <;> simp [Hupd.Start, hk]

/-- C8: `Restart` returns a `NoProcess`-coded error iff the `Process` field
is nil, whatever the marker, timeout or environment; and in that case
nothing else happens (the event trace is empty, the error wraps nothing). -/
theorem Restart_noProcess_spec (h : Hupd) (env : RestartEnv) :
    (errCodeOf (h.Restart env) = some ErrNoProcess ↔ h.Process = none) ∧
    (h.Process = none → h.Restart env = some ([], some ⟨ErrNoProcess, none⟩)) := by
  rcases Restart_shape h env with ⟨hn, hr⟩ | ⟨p, cmd, hp, _, hcase⟩
  · exact ⟨⟨fun _ => hn, fun _ => by rw [hr]; rfl⟩, fun _ => hr⟩
  · refine ⟨⟨fun hc => ?_, fun hn => by rw [hn] at hp; cases hp⟩,
      fun hn => by rw [hn] at hp; cases hp⟩
    exfalso
    rcases hcase with ⟨e, _, hr⟩ | ⟨cmd2, _,
        ⟨e, _, hr⟩ | ⟨_, _, hr⟩ | ⟨_, _, _, hr⟩ | ⟨_, _, _, hr⟩⟩ <;>
      rw [hr] at hc <;>
      simp [errCodeOf, ErrNoProcess, ErrRestart, ErrNewProcess, ErrTimeout] at hc

/-- C9: `Error.Error` renders the fixed message for each of the five known
codes, the generic fallback for any other code, and appends the wrapped
cause after a `": "` separator exactly when a cause is present. -/
theorem Error_render_spec (c : Int) (i : Option String) :
    Error.Error (some ⟨c, i⟩) =
      (if c = ErrTimeout then "huprt: process restart timed out"
       else if c = ErrNewProcess then "huprt: error starting new process"
       else if c = ErrKillProcess then "huprt: error killing parent process"
       else if c = ErrRestart then "huprt: restart error"
       else if c = ErrNoProcess then "huprt: Hupd.Process is nil"
       else "huprt: unknown error") ++ innerSuffix i := by
  rcases i with _ | s <;>
    simp only [Error.Error, errMessages, innerSuffix] <;>
    split_ifs <;> simp [String.append_empty, String.append_assoc]

/-- C2: with a strictly positive timeout, a successful `BeginRestart` and
spawn, and no termination signal delivered within the timeout, `Restart`
returns a `Timeout`-coded error and `Kill()` is never invoked. -/
theorem Restart_timeout_no_kill (h : Hupd) (p : Process) (cmd2 : Cmd) (env : RestartEnv)
    (hp : h.Process = some p)
    (hb : p.BeginRestart (restartCmd h.restartArgEff env.osArgs0 env.osArgsRest)
      = (none, cmd2))
    (hs : env.spawnErr = none)
    (ht : 0 < h.Timeout)
    (hsig : env.sigBeforeTimeout = false) :
    ∃ tr, h.Restart env = some (tr, some ⟨ErrTimeout, none⟩) ∧ countKill tr = 0 :=
  ⟨[.beginRestartCall (restartCmd h.restartArgEff env.osArgs0 env.osArgsRest),
      .notifySigterm, .spawnCall cmd2, .stopSigterm],
    by simp [Hupd.Restart, hp, hb, hs, hsig, ht], by simp [countKill]⟩

/-- C3: with timeout zero (unbounded wait), a successful `BeginRestart` and
spawn, and the termination signal delivered, `Restart` invokes `Kill()`
exactly once and returns success; moreover in every returning run `Kill()`
happens at most once and only in a run that returns success. -/
theorem Restart_signal_kills_once (h : Hupd) (p : Process) (cmd2 : Cmd) (env : RestartEnv)
    (hp : h.Process = some p)
    (hb : p.BeginRestart (restartCmd h.restartArgEff env.osArgs0 env.osArgsRest)
      = (none, cmd2))
    (hs : env.spawnErr = none)
    (ht : h.Timeout = 0)
    (hsig : env.sigBeforeTimeout = true) :
    (∃ tr, h.Restart env = some (tr, none) ∧ countKill tr = 1) ∧
    ∀ (h' : Hupd) (env' : RestartEnv) (tr' : List REvent) (res : Option Error),
      h'.Restart env' = some (tr', res) →
      countKill tr' ≤ 1 ∧ (countKill tr' = 1 → res = none) :=
  ⟨⟨[.beginRestartCall (restartCmd h.restartArgEff env.osArgs0 env.osArgsRest),
      .notifySigterm, .spawnCall cmd2, .killCall, .stopSigterm],
    by simp [Hupd.Restart, hp, hb, hs, hsig], by simp [countKill]⟩,
    fun h' env' tr' res hr => countKill_at_most_one h' env' tr' res hr⟩

/-- C4: `Restart` returns a `Restart`-coded error wrapping the cause iff
`BeginRestart` returned that error; in that case the trace is the lone
`BeginRestart` call — nothing is spawned and no subscription is made. -/
theorem Restart_beginError_spec (h : Hupd) (p : Process) (env : RestartEnv)
    (hp : h.Process = some p) :
    (∀ e, (p.BeginRestart (restartCmd h.restartArgEff env.osArgs0 env.osArgsRest)).1
        = some e →
      h.Restart env =
        some ([.beginRestartCall (restartCmd h.restartArgEff env.osArgs0 env.osArgsRest)],
          some ⟨ErrRestart, some e⟩)) ∧
    (∀ tr err, h.Restart env = some (tr, some err) → err.Code = ErrRestart →
      (∃ e, (p.BeginRestart (restartCmd h.restartArgEff env.osArgs0 env.osArgsRest)).1
          = some e ∧ err.Inner = some e) ∧
      hasSpawn tr = false ∧ hasNotify tr = false) := by
  constructor
  · intro e he
    rcases hB : p.BeginRestart (restartCmd h.restartArgEff env.osArgs0 env.osArgsRest)
      with ⟨berr, c2⟩
    rw [hB] at he
    simp only at he
    subst he
    simp [Hupd.Restart, hp, hB]
  · intro tr err hr hcode
    rcases Restart_shape h env with ⟨hn, _⟩ | ⟨p', cmd, hp', hcmd, hcase⟩
    · rw [hp] at hn
      cases hn
    · rw [hp] at hp'
      injection hp' with hpe
      subst hpe
      subst hcmd
      rcases hcase with ⟨e, hbe, hr'⟩ | ⟨cmd2, hb2, hcase⟩
      · obtain ⟨h1, h2⟩ := some_pair_inv (hr'.symm.trans hr)
        subst h1
        injection h2.symm with h2'
        subst h2'
        exact ⟨⟨e, hbe, rfl⟩, rfl, rfl⟩
      · exfalso
        rcases hcase with ⟨e, _, hr'⟩ | ⟨_, _, hr'⟩ | ⟨_, _, _, hr'⟩ | ⟨_, _, _, hr'⟩
        · obtain ⟨h1, h2⟩ := some_pair_inv (hr'.symm.trans hr)
          injection h2.symm with h2'
          rw [h2'] at hcode
          simp [ErrNewProcess, ErrRestart] at hcode
        · obtain ⟨h1, h2⟩ := some_pair_inv (hr'.symm.trans hr)
          cases h2
        · obtain ⟨h1, h2⟩ := some_pair_inv (hr'.symm.trans hr)
          injection h2.symm with h2'
          rw [h2'] at hcode
          simp [ErrTimeout, ErrRestart] at hcode
        · exact Option.noConfusion (hr'.symm.trans hr)

/-- C5: `Restart` returns a `NewProcess`-coded error wrapping the cause iff
the spawn failed after `BeginRestart` succeeded; in that case the
subscription is released and `Kill()` is not invoked. -/
theorem Restart_spawnError_spec (h : Hupd) (p : Process) (env : RestartEnv)
    (hp : h.Process = some p) :
    (∀ cmd2 e,
      p.BeginRestart (restartCmd h.restartArgEff env.osArgs0 env.osArgsRest)
        = (none, cmd2) →
      env.spawnErr = some e →
      h.Restart env =
        some ([.beginRestartCall (restartCmd h.restartArgEff env.osArgs0 env.osArgsRest),
          .notifySigterm, .spawnCall cmd2, .stopSigterm],
          some ⟨ErrNewProcess, some e⟩)) ∧
    (∀ tr err, h.Restart env = some (tr, some err) → err.Code = ErrNewProcess →
      (p.BeginRestart (restartCmd h.restartArgEff env.osArgs0 env.osArgsRest)).1 = none ∧
      (∃ e, env.spawnErr = some e ∧ err.Inner = some e) ∧
      hasStop tr = true ∧ countKill tr = 0) := by
  constructor
  · intro cmd2 e hb hse
    simp [Hupd.Restart, hp, hb, hse]
  · intro tr err hr hcode
    rcases Restart_shape h env with ⟨hn, _⟩ | ⟨p', cmd, hp', hcmd, hcase⟩
    · rw [hp] at hn
      cases hn
    · rw [hp] at hp'
      injection hp' with hpe
      subst hpe
      subst hcmd
      rcases hcase with ⟨e, hbe, hr'⟩ | ⟨cmd2, hb2, hcase⟩
      · exfalso
        obtain ⟨h1, h2⟩ := some_pair_inv (hr'.symm.trans hr)
        injection h2.symm with h2'
        rw [h2'] at hcode
        simp [ErrNewProcess, ErrRestart] at hcode
      · rcases hcase with ⟨e, hse, hr'⟩ | ⟨_, _, hr'⟩ | ⟨_, _, _, hr'⟩ | ⟨_, _, _, hr'⟩
        · obtain ⟨h1, h2⟩ := some_pair_inv (hr'.symm.trans hr)
          subst h1
          injection h2.symm with h2'
          subst h2'
          exact ⟨by rw [hb2], ⟨e, hse, rfl⟩, rfl, by simp [countKill]⟩
        · exfalso
          obtain ⟨h1, h2⟩ := some_pair_inv (hr'.symm.trans hr)
          cases h2
        · exfalso
          obtain ⟨h1, h2⟩ := some_pair_inv (hr'.symm.trans hr)
          injection h2.symm with h2'
          rw [h2'] at hcode
          simp [ErrTimeout, ErrNewProcess] at hcode
        · exact Option.noConfusion (hr'.symm.trans hr)

/-- C6: every returning run whose trace contains a spawn attempt starts
with exactly `BeginRestart`, then the SIGTERM subscription registration,
then the spawn — registration is after `BeginRestart` and strictly before
the spawn — and its last event is the subscription release, so the
subscription is released on every exit path. -/
theorem Restart_subscription_order (h : Hupd) (env : RestartEnv) (tr : List REvent)
    (res : Option Error) (hr : h.Restart env = some (tr, res))
    (hsp : hasSpawn tr = true) :
    ∃ cmd cmd2 rest,
      tr = [.beginRestartCall cmd, .notifySigterm, .spawnCall cmd2] ++ rest ∧
      tr.getLast? = some .stopSigterm := by
  rcases Restart_shape h env with ⟨_, hr'⟩ | ⟨p, cmd, _, _,
      ⟨e, _, hr'⟩ | ⟨cmd2, _, ⟨e, _, hr'⟩ | ⟨_, _, hr'⟩ | ⟨_, _, _, hr'⟩ | ⟨_, _, _, hr'⟩⟩⟩
  · obtain ⟨h1, h2⟩ := some_pair_inv (hr'.symm.trans hr)
    subst h1
    cases hsp
  · obtain ⟨h1, h2⟩ := some_pair_inv (hr'.symm.trans hr)
    subst h1
    simp [hasSpawn] at hsp
  · obtain ⟨h1, h2⟩ := some_pair_inv (hr'.symm.trans hr)
    subst h1
    exact ⟨cmd, cmd2, [.stopSigterm], rfl, rfl⟩
  · obtain ⟨h1, h2⟩ := some_pair_inv (hr'.symm.trans hr)
    subst h1
    exact ⟨cmd, cmd2, [.killCall, .stopSigterm], rfl, rfl⟩
  · obtain ⟨h1, h2⟩ := some_pair_inv (hr'.symm.trans hr)
    subst h1
    exact ⟨cmd, cmd2, [.stopSigterm], rfl, rfl⟩
  · exact Option.noConfusion (hr'.symm.trans hr)

/-- C10: a negative timeout behaves exactly like timeout zero (the timeout
channel stays nil, so the wait is unbounded), and a `Timeout`-coded error
can only be returned when the configured timeout is strictly positive. -/
theorem Restart_nonpositive_timeout (P : Option Process) (ra : String) (t : Int)
    (env : RestartEnv) (ht : t ≤ 0) :
    (Hupd.mk P ra t).Restart env = (Hupd.mk P ra 0).Restart env ∧
    ∀ (h' : Hupd) (env' : RestartEnv),
      errCodeOf (h'.Restart env') = some ErrTimeout → 0 < h'.Timeout := by
  constructor
  · have hto : ¬ (0:Int) < t := by omega
    rcases P with _ | p
    · rfl
    · rcases hB : p.BeginRestart
          (restartCmd (Hupd.mk (some p) ra t).restartArgEff env.osArgs0 env.osArgsRest)
        with ⟨berr, cmd2⟩
      have hB' : p.BeginRestart
          (restartCmd (Hupd.mk (some p) ra 0).restartArgEff env.osArgs0 env.osArgsRest)
        = (berr, cmd2) := hB
      have harg : (Hupd.mk (some p) ra 0).restartArgEff
        = (Hupd.mk (some p) ra t).restartArgEff := rfl
      rcases berr with _ | e
      · rcases hS : env.spawnErr with _ | e
        · rcases hT : env.sigBeforeTimeout with _ | _
          · simp [Hupd.Restart, harg, hB, hB', hS, hT, hto]
          · simp [Hupd.Restart, harg, hB, hB', hS, hT]
        · simp [Hupd.Restart, harg, hB, hB', hS]
      · simp [Hupd.Restart, harg, hB, hB']
  · intro h' env' hc
    rcases Restart_shape h' env' with ⟨_, hr'⟩ | ⟨p, cmd, _, _,
        ⟨e, _, hr'⟩ | ⟨cmd2, _, ⟨e, _, hr'⟩ | ⟨_, _, hr'⟩ | ⟨_, _, hto, hr'⟩ | ⟨_, _, _, hr'⟩⟩⟩ <;>
      rw [hr'] at hc
    · simp [errCodeOf, ErrNoProcess, ErrTimeout] at hc
    · simp [errCodeOf, ErrRestart, ErrTimeout] at hc
    · simp [errCodeOf, ErrNewProcess, ErrTimeout] at hc
    · simp [errCodeOf] at hc
    · exact hto
    · simp [errCodeOf] at hc

/-- Witness for C2 at a concrete configuration: timeout 5, accepting
capability, spawn succeeds, no SIGTERM within the window. -/
theorem Restart_timeout_no_kill_witness :
    ∃ tr, (Hupd.mk (some okProcess) "" 5).Restart envNoSig
        = some (tr, some ⟨ErrTimeout, none⟩) ∧ countKill tr = 0 :=
  Restart_timeout_no_kill (Hupd.mk (some okProcess) "" 5) okProcess
    (restartCmd "-restart" "prog" ["a"]) envNoSig rfl rfl rfl (by decide) rfl

/-- Witness for C3 at a concrete configuration: timeout 0, accepting
capability, spawn succeeds, SIGTERM delivered. -/
theorem Restart_signal_kills_once_witness :
    (∃ tr, (Hupd.mk (some okProcess) "" 0).Restart envSig = some (tr, none) ∧
      countKill tr = 1) ∧
    ∀ (h' : Hupd) (env' : RestartEnv) (tr' : List REvent) (res : Option Error),
      h'.Restart env' = some (tr', res) →
      countKill tr' ≤ 1 ∧ (countKill tr' = 1 → res = none) :=
  Restart_signal_kills_once (Hupd.mk (some okProcess) "" 0) okProcess
    (restartCmd "-restart" "prog" ["a"]) envSig rfl rfl rfl rfl rfl

/-- Witness for C4 at a concrete configuration: the capability rejects the
restart, so `Restart` stops after the lone `BeginRestart` call. -/
theorem Restart_beginError_spec_witness :
    (Hupd.mk (some failProcess) "" 0).Restart envSig
      = some ([.beginRestartCall (restartCmd "-restart" "prog" ["a"])],
          some ⟨ErrRestart, some "begin failed"⟩) :=
  (Restart_beginError_spec (Hupd.mk (some failProcess) "" 0) failProcess envSig rfl).1
    "begin failed" rfl

/-- Witness for C5 at a concrete configuration: `BeginRestart` succeeds and
the spawn fails. -/
theorem Restart_spawnError_spec_witness :
    (Hupd.mk (some okProcess) "" 0).Restart envSpawnFail
      = some ([.beginRestartCall (restartCmd "-restart" "prog" ["a"]), .notifySigterm,
          .spawnCall (restartCmd "-restart" "prog" ["a"]), .stopSigterm],
          some ⟨ErrNewProcess, some "spawn failed"⟩) :=
  (Restart_spawnError_spec (Hupd.mk (some okProcess) "" 0) okProcess envSpawnFail rfl).1
    (restartCmd "-restart" "prog" ["a"]) "spawn failed" rfl rfl

/-- Witness for C6 at a concrete successful run. -/
theorem Restart_subscription_order_witness :
    ∃ cmd cmd2 rest,
      ([.beginRestartCall (restartCmd "-restart" "prog" ["a"]), .notifySigterm,
        .spawnCall (restartCmd "-restart" "prog" ["a"]), .killCall, .stopSigterm]
          : List REvent)
        = [.beginRestartCall cmd, .notifySigterm, .spawnCall cmd2] ++ rest ∧
      ([.beginRestartCall (restartCmd "-restart" "prog" ["a"]), .notifySigterm,
        .spawnCall (restartCmd "-restart" "prog" ["a"]), .killCall, .stopSigterm]
          : List REvent).getLast? = some .stopSigterm :=
  Restart_subscription_order (Hupd.mk (some okProcess) "" 0) envSig
    [.beginRestartCall (restartCmd "-restart" "prog" ["a"]), .notifySigterm,
      .spawnCall (restartCmd "-restart" "prog" ["a"]), .killCall, .stopSigterm]
    none rfl rfl

/-- Witness for C8 at a concrete configuration with no capability. -/
theorem Restart_noProcess_spec_witness :
    (errCodeOf ((Hupd.mk none "" 0).Restart envSig) = some ErrNoProcess ↔
      (Hupd.mk none "" 0 : Hupd).Process = none) ∧
    ((Hupd.mk none "" 0 : Hupd).Process = none →
      (Hupd.mk none "" 0).Restart envSig = some ([], some ⟨ErrNoProcess, none⟩)) :=
  Restart_noProcess_spec (Hupd.mk none "" 0) envSig

/-- Witness for C10 at a concrete negative timeout. -/
theorem Restart_nonpositive_timeout_witness :
    ((-7 : Int) ≤ 0) ∧
    ((Hupd.mk (some okProcess) "" (-7)).Restart envSig
      = (Hupd.mk (some okProcess) "" 0).Restart envSig) :=
  ⟨by decide, (Restart_nonpositive_timeout (some okProcess) "" (-7) envSig (by decide)).1⟩

end Huprt
